import Mathlib

/-!
Shallow embedding of the athlete-review overlay engine.

The embedding covers the two `VideoPlayer` implementations found in the
repository: the click-interaction variant (`src/components/VideoPlayer/VideoPlayer.tsx`,
prefixed `click` below) and the hover-interaction variant (an unnamed source file,
prefixed `hover` below).  JavaScript numbers are modelled as exact rationals `ℚ`
except where the source computes with transcendental functions (`Math.atan2`,
`Math.sqrt`), which are modelled over `ℝ`.  JavaScript falsiness of a number is
modelled as equality with `0`; an absent (`undefined`/`null`) value is `Option.none`;
a falsy string is the empty string.  Canvas mutation is modelled as the list of
drawing primitives committed to the surface since the last `clearRect`.
-/

/-- A detected keypoint: name, detection-space position, confidence score
(`{ name, x, y, score }` in the source). -/
structure Keypoint where
  name : String
  x : ℚ
  y : ℚ
  score : ℚ
deriving DecidableEq, Repr

/-- The video-element context a drawing call observes: whether `videoRef.current`
is non-null, the native dimensions `videoWidth`/`videoHeight`, and the rendered
dimensions from `getBoundingClientRect()`. -/
structure VideoCtx where
  present : Bool
  nativeW : ℚ
  nativeH : ℚ
  dispW : ℚ
  dispH : ℚ
deriving DecidableEq, Repr

/-- Substring test on character lists, modelling JavaScript
`String.prototype.includes`: `listStartsWith l pat` holds when `pat` is an
initial segment of `l`. -/
def listStartsWith : List Char → List Char → Bool
  | _, [] => true
  | [], _ :: _ => false
  | c :: cs, d :: ds => c == d && listStartsWith cs ds

/-- Substring test: `listHasSub l pat` holds when `pat` occurs contiguously in `l`. -/
def listHasSub : List Char → List Char → Bool
  | [], pat => listStartsWith [] pat
  | c :: cs, pat => listStartsWith (c :: cs) pat || listHasSub cs pat

/-- String containment, modelling `jointName.includes('elbow')` etc. -/
def containsStr (hay pat : String) : Bool :=
  listHasSub hay.data pat.data

/-- The keypoint map built in the source by
`keypoints.reduce((map, kp) => { if (kp.name) map[kp.name] = kp; return map; }, {})`:
keypoints with a falsy (empty) name are skipped, later entries overwrite earlier
ones. -/
def buildKeypointMap (kps : List Keypoint) : String → Option Keypoint :=
  kps.foldl
    (fun m kp =>
      if kp.name = "" then m
      else fun n => if n = kp.name then some kp else m n)
    (fun _ => none)

/-- Coordinate mapping `mapToDisplaySpace(x, y)` (identical in both variants):
if the video element is absent the input is returned unchanged, otherwise the
point is scaled by `videoRect.width / video.videoWidth` and
`videoRect.height / video.videoHeight`.  There is no zero-dimension guard in the
source; in this rational model a division by zero denominator yields `0` (where
JavaScript would yield `Infinity`/`NaN`) — in either semantics the input is not
returned unchanged. -/
def mapToDisplaySpace (v : VideoCtx) (x y : ℚ) : ℚ × ℚ :=
  if v.present = false then (x, y)
  else (x * (v.dispW / v.nativeW), y * (v.dispH / v.nativeH))

/-- The inverse scaling used by `saveFrameWithOverlays`:
`scaleX = tempCanvas.width / skeletonCanvas.width` (native over display),
applied multiplicatively to overlay coordinates. -/
def saveFrameScale (v : VideoCtx) (x y : ℚ) : ℚ × ℚ :=
  (x * (v.nativeW / v.dispW), y * (v.nativeH / v.dispH))

/-- Two-argument arctangent with range `(-π, π]`, modelling `Math.atan2(y, x)`. -/
noncomputable def atan2 (y x : ℝ) : ℝ :=
  Complex.arg { re := x, im := y }

/-- JavaScript `Math.round`: round half toward positive infinity. -/
noncomputable def jsRound (x : ℝ) : ℤ :=
  ⌊x + 1 / 2⌋

/-- The joint-angle body shared by the elbow and knee branches of
`calculateJointAngle`:
`Math.abs(Math.round((atan2(c − b) − atan2(a − b)) * (180 / Math.PI)))`. -/
noncomputable def jointAngleDeg (a b c : Keypoint) : ℤ :=
  |jsRound ((atan2 ((c.y : ℝ) - (b.y : ℝ)) ((c.x : ℝ) - (b.x : ℝ)) -
      atan2 ((a.y : ℝ) - (b.y : ℝ)) ((a.x : ℝ) - (b.x : ℝ))) * (180 / Real.pi))|

/-- `calculateJointAngle(keypointMap, jointName)` (identical in both variants):
elbow names use same-side shoulder/elbow/wrist, knee names use same-side
hip/knee/ankle, side is chosen by a `'left'` substring match, any missing
landmark or any other joint name yields `null`.  The keypoint map is consulted
without any score filtering. -/
noncomputable def calculateJointAngle (keypointMap : String → Option Keypoint)
    (jointName : String) : Option ℤ :=
  if containsStr jointName "elbow" then
    let side := if containsStr jointName "left" then "left" else "right"
    match keypointMap (side ++ "_shoulder"), keypointMap (side ++ "_elbow"),
        keypointMap (side ++ "_wrist") with
    | some shoulder, some elbow, some wrist => some (jointAngleDeg shoulder elbow wrist)
    | _, _, _ => none
  else if containsStr jointName "knee" then
    let side := if containsStr jointName "left" then "left" else "right"
    match keypointMap (side ++ "_hip"), keypointMap (side ++ "_knee"),
        keypointMap (side ++ "_ankle") with
    | some hip, some knee, some ankle => some (jointAngleDeg hip knee ankle)
    | _, _, _ => none
  else none

/-- A primitive committed to the overlay canvas.  `dim` records the full-frame
70%-black fill together with the `destination-out` spotlight rectangle
`(x, y, width, height)` cut out of it. -/
inductive DrawOp where
  | line (a b : ℚ × ℚ)
  | marker (center : ℚ × ℚ) (color : String)
  | dim (spotlight : ℚ × ℚ × ℚ × ℚ)
  | tooltip (pos : ℚ × ℚ) (title : String) (angle : Option ℤ)
deriving DecidableEq, Repr

/-- Body-region palette `getJointColor` (identical in both variants). -/
def getJointColor (jointName : String) : String :=
  if jointName = "" then "#FFFFFF"
  else if containsStr jointName "nose" || containsStr jointName "eye" ||
      containsStr jointName "ear" then "#FF0000"
  else if containsStr jointName "shoulder" || containsStr jointName "hip" then "#00FF00"
  else if containsStr jointName "elbow" || containsStr jointName "wrist" then "#0000FF"
  else if containsStr jointName "knee" || containsStr jointName "ankle" then "#FFA500"
  else "#FFFFFF"

/-- The fixed bone graph (identical `connections` array in both variants). -/
def connections : List (String × String) :=
  [("nose", "left_eye"), ("nose", "right_eye"),
   ("left_eye", "left_ear"), ("right_eye", "right_ear"),
   ("left_shoulder", "right_shoulder"),
   ("left_shoulder", "left_elbow"),
   ("right_shoulder", "right_elbow"),
   ("left_elbow", "left_wrist"),
   ("right_elbow", "right_wrist"),
   ("left_shoulder", "left_hip"),
   ("right_shoulder", "right_hip"),
   ("left_hip", "right_hip"),
   ("left_hip", "left_knee"),
   ("right_hip", "right_knee"),
   ("left_knee", "left_ankle"),
   ("right_knee", "right_ankle")]

/-- The per-bone guard in `drawSkeleton`:
`startPoint?.score && endPoint?.score && startPoint.score > 0.3 && endPoint.score > 0.3`. -/
def bothEndpointsOk (a b : Keypoint) : Bool :=
  decide (a.score ≠ 0) && decide (b.score ≠ 0) &&
    decide ((3 : ℚ) / 10 < a.score) && decide ((3 : ℚ) / 10 < b.score)

/-- The line segments committed by `drawSkeleton` (identical bone loop in both
variants; the hover variant additionally guards the whole call on `paused`,
handled at its call site). -/
def skeletonOps (v : VideoCtx) (keypointMap : String → Option Keypoint) : List DrawOp :=
  connections.filterMap (fun pr =>
    match keypointMap pr.1, keypointMap pr.2 with
    | some a, some b =>
      if bothEndpointsOk a b then
        some (DrawOp.line (mapToDisplaySpace v a.x a.y) (mapToDisplaySpace v b.x b.y))
      else none
    | _, _ => none)

/-- The strict confidence guard `kp.score && kp.score > 0.3` used by the
click-variant marker loop, by both dimming paths, and (per endpoint) by
`drawSkeleton`. -/
def scoreOkStrict (kp : Keypoint) : Bool :=
  decide (kp.score ≠ 0) && decide ((3 : ℚ) / 10 < kp.score)

/-- The joint markers committed by the click-variant keypoint loop:
one radius-6 circle per keypoint with `keypoint.score && keypoint.score > 0.3`. -/
def clickMarkerOps (v : VideoCtx) (kps : List Keypoint) : List DrawOp :=
  kps.filterMap (fun kp =>
    if scoreOkStrict kp then
      some (DrawOp.marker (mapToDisplaySpace v kp.x kp.y) (getJointColor kp.name))
    else none)

/-- JavaScript `Math.min(...list)` over a nonempty spread, seeded with the head. -/
def jsMinFold (a : ℚ) (l : List ℚ) : ℚ :=
  l.foldl min a

/-- JavaScript `Math.max(...list)` over a nonempty spread, seeded with the head. -/
def jsMaxFold (a : ℚ) (l : List ℚ) : ℚ :=
  l.foldl max a

/-- The click-variant `applyDimmingEffect`: filter keypoints with
`kp.score && kp.score > 0.3`; if none qualify, do nothing; otherwise map the
qualifying keypoints to display space, take the axis-aligned bounding box of the
mapped points, pad it by 50px on every side, and commit the dim layer with that
spotlight rectangle. -/
def clickDimOps (v : VideoCtx) (kps : List Keypoint) : List DrawOp :=
  match kps.filter scoreOkStrict with
  | [] => []
  | k :: ks =>
    match (k :: ks).map (fun kp => mapToDisplaySpace v kp.x kp.y) with
    | [] => []
    | p :: ps =>
      let minX := jsMinFold p.1 (ps.map Prod.fst)
      let maxX := jsMaxFold p.1 (ps.map Prod.fst)
      let minY := jsMinFold p.2 (ps.map Prod.snd)
      let maxY := jsMaxFold p.2 (ps.map Prod.snd)
      [DrawOp.dim (minX - 50, minY - 50, maxX - minX + 2 * 50, maxY - minY + 2 * 50)]

/-- A detected pose as the source consumes it: an overall score (falsy modelled
as `0`) and an optional keypoint list (`undefined` modelled as `none`). -/
structure Pose where
  score : ℚ
  keypoints : Option (List Keypoint)
deriving DecidableEq, Repr

/-- Outcome of one `detector.estimatePoses` call: it either throws or returns a
pose list. -/
inductive DetectResult where
  | throws
  | ok (poses : List Pose)
deriving DecidableEq, Repr

/-- One click-variant `detectAndDraw` cycle.  Inputs: the prerequisite guard
(detector, refs and readiness all available), the video context, the dimming
flag, the `video.paused` flag, the estimator outcome, the canvas content before
the cycle, and the `currentKeypoints` state.  Output: the canvas content after
the cycle and the new `currentKeypoints` state.  The source resizes the canvas
and runs `clearRect` before the estimator is awaited; an exception thrown by the
estimator is caught and logged. -/
def clickDetectAndDraw (prereq : Bool) (v : VideoCtx) (showDimming paused : Bool)
    (res : DetectResult) (canvas : List DrawOp) (curKps : Option (List Keypoint)) :
    List DrawOp × Option (List Keypoint) :=
  if prereq = false then (canvas, curKps)
  else
    if paused = false then ([], curKps)
    else
      match res with
      | DetectResult.throws => ([], curKps)
      | DetectResult.ok poses =>
        match poses with
        | [] => ([], none)
        | p :: _ =>
          match p.keypoints with
          | none => ([], none)
          | some kps =>
            let keypointMap := buildKeypointMap kps
            let dimOps := if showDimming then clickDimOps v kps else []
            (dimOps ++ skeletonOps v keypointMap ++ clickMarkerOps v kps, some kps)

/-- Display-space Euclidean distance from the pointer to a mapped point:
`Math.sqrt((clickX − mapped.x)² + (clickY − mapped.y)²)`. -/
noncomputable def distanceToPointer (cx cy : ℚ) (p : ℚ × ℚ) : ℝ :=
  Real.sqrt (((cx - p.1) ^ 2 + (cy - p.2) ^ 2 : ℚ) : ℝ)

instance (cx cy : ℚ) (p : ℚ × ℚ) : Decidable (distanceToPointer cx cy p < 15) :=
  decidable_of_iff ((cx - p.1) ^ 2 + (cy - p.2) ^ 2 < 225)
    (by
      unfold distanceToPointer
      rw [Real.sqrt_lt' (by norm_num : (0 : ℝ) < 15)]
      rw [show ((15 : ℝ) ^ 2) = (((225 : ℚ) : ℝ)) from by norm_num]
      exact Rat.cast_lt.symm)

/-- The predicate passed to `currentKeypoints.find` in `handleCanvasClick`:
reject when `!keypoint.score || keypoint.score < 0.3`, otherwise test the mapped
display-space distance strictly against 15px. -/
def hitTestPred (v : VideoCtx) (cx cy : ℚ) (kp : Keypoint) : Bool :=
  if kp.score = 0 ∨ kp.score < 3 / 10 then false
  else decide (distanceToPointer cx cy (mapToDisplaySpace v kp.x kp.y) < 15)

/-- The hit test `currentKeypoints.find(...)`: first keypoint, in list order,
passing `hitTestPred`. -/
def jointHit (v : VideoCtx) (cx cy : ℚ) (kps : List Keypoint) : Option Keypoint :=
  kps.find? (hitTestPred v cx cy)

/-- The `clickedJoint` state: joint name, optional angle, display-space position. -/
structure ClickedJoint where
  name : String
  angle : Option ℤ
  x : ℚ
  y : ℚ

/-- The `handleCanvasClick` handler.  It returns the new `clickedJoint` state:
unchanged when the guard `!videoRef.current?.paused || !currentKeypoints ||
!skeletonCanvasRef.current` fires, otherwise the detail record of the first hit
keypoint, or `none` (clearing any previous selection) when nothing is hit.
The source passes `jointClicked.name || ''` to `calculateJointAngle`, which
coincides with passing the name itself. -/
noncomputable def handleCanvasClick (v : VideoCtx) (paused canvasPresent : Bool)
    (curKps : Option (List Keypoint)) (cx cy : ℚ) (prev : Option ClickedJoint) :
    Option ClickedJoint :=
  if paused = false then prev
  else
    match curKps with
    | none => prev
    | some kps =>
      if canvasPresent = false then prev
      else
        match jointHit v cx cy kps with
        | some kp =>
          let mapped := mapToDisplaySpace v kp.x kp.y
          let keypointMap := buildKeypointMap kps
          some { name := if kp.name = "" then "Unknown Joint" else kp.name,
                 angle := calculateJointAngle keypointMap kp.name,
                 x := mapped.1, y := mapped.2 }
        | none => none

/-- A bounding box `{x, y, width, height}` in detection space. -/
structure BoundingBox where
  x : ℚ
  y : ℚ
  width : ℚ
  height : ℚ
deriving DecidableEq, Repr

/-- The hover-variant `calculateBoundingBox`: `null` when no keypoint passes
`kp.score && kp.score > 0.3`, otherwise the min/max extents of the qualifying
keypoints in detection space. -/
def calculateBoundingBox (kps : List Keypoint) : Option BoundingBox :=
  match kps.filter scoreOkStrict with
  | [] => none
  | k :: ks =>
    some { x := jsMinFold k.x (ks.map Keypoint.x),
           y := jsMinFold k.y (ks.map Keypoint.y),
           width := jsMaxFold k.x (ks.map Keypoint.x) - jsMinFold k.x (ks.map Keypoint.x),
           height := jsMaxFold k.y (ks.map Keypoint.y) - jsMinFold k.y (ks.map Keypoint.y) }

/-- The hover-variant `applyDimmingEffect`: map the box corners to display
space, then pad the mapped rectangle by 50px on every side and commit the dim
layer with that spotlight rectangle. -/
def hoverDimOps (v : VideoCtx) (bb : BoundingBox) : List DrawOp :=
  let topLeft := mapToDisplaySpace v bb.x bb.y
  let bottomRight := mapToDisplaySpace v (bb.x + bb.width) (bb.y + bb.height)
  [DrawOp.dim (topLeft.1 - 50, topLeft.2 - 50,
    (bottomRight.1 - topLeft.1) + 50 * 2, (bottomRight.2 - topLeft.2) + 50 * 2)]

/-- One step of the hover-variant keypoint loop: skip when
`!keypoint.score || keypoint.score < 0.3`; otherwise, when paused, commit the
joint marker and, if the mouse is within the 15px hover radius, the tooltip
(name with `'Unknown Joint'` fallback, plus the computed angle). -/
noncomputable def hoverKeypointStep (v : VideoCtx) (paused : Bool) (mouseX mouseY : ℚ)
    (keypointMap : String → Option Keypoint) (acc : List DrawOp) (kp : Keypoint) :
    List DrawOp :=
  if kp.score = 0 ∨ kp.score < 3 / 10 then acc
  else
    let mapped := mapToDisplaySpace v kp.x kp.y
    if paused then
      let acc1 := acc ++ [DrawOp.marker mapped (getJointColor kp.name)]
      if distanceToPointer mouseX mouseY mapped < 15 then
        acc1 ++ [DrawOp.tooltip mapped (if kp.name = "" then "Unknown Joint" else kp.name)
          (calculateJointAngle keypointMap kp.name)]
      else acc1
    else acc

/-- The hover-variant per-pose body inside `poses.forEach`: skip poses with
`!pose.score || pose.score < 0.3` or without a nonempty keypoint list; otherwise
commit the skeleton (guarded on `paused` inside `drawSkeleton`), then the
markers and tooltips, then — when `showDimming` is set and the bounding box has
strictly positive width and height — the dimming layer. -/
noncomputable def hoverPoseOps (v : VideoCtx) (showDimming paused : Bool)
    (mouseX mouseY : ℚ) (pose : Pose) : List DrawOp :=
  if pose.score = 0 ∨ pose.score < 3 / 10 then []
  else
    match pose.keypoints with
    | none => []
    | some [] => []
    | some (k :: ks) =>
      let keypointMap := buildKeypointMap (k :: ks)
      let lineOps := if paused then skeletonOps v keypointMap else []
      let markerOps :=
        (k :: ks).foldl (hoverKeypointStep v paused mouseX mouseY keypointMap) []
      let dimOps :=
        if showDimming then
          match calculateBoundingBox (k :: ks) with
          | some bb => if 0 < bb.width ∧ 0 < bb.height then hoverDimOps v bb else []
          | none => []
        else []
      lineOps ++ markerOps ++ dimOps

/-- One hover-variant `detectAndDraw` cycle.  The prerequisite guard and the
zero-video-dimension guard return before the canvas is touched; otherwise the
canvas is resized and cleared, the estimator is awaited, and an empty outcome
(throw, no poses, or first pose without keypoints) leaves the canvas cleared. -/
noncomputable def hoverDetectAndDraw (prereq : Bool) (v : VideoCtx)
    (showDimming paused : Bool) (mouseX mouseY : ℚ) (res : DetectResult)
    (canvas : List DrawOp) : List DrawOp :=
  if prereq = false then canvas
  else if v.nativeW = 0 ∨ v.nativeH = 0 then canvas
  else
    match res with
    | DetectResult.throws => []
    | DetectResult.ok poses =>
      match poses with
      | [] => []
      | p :: ps =>
        match p.keypoints with
        | none => []
        | some _ =>
          (p :: ps).foldl
            (fun acc pose => acc ++ hoverPoseOps v showDimming paused mouseX mouseY pose) []

/-- The commands a `timeupdate` handler run can issue. -/
inductive PlayerAction where
  | pauseVideo
  | waitMs (ms : ℕ)
  | detect
deriving DecidableEq, Repr

/-- The `handleTimeUpdate` handler (identical in both variants up to the
schedule constant): return immediately on a falsy `currentTime`; otherwise,
when the time is within 0.1s of a schedule entry and the video is not paused,
pause, wait the fixed 200ms settle delay, and run one detection pass. -/
def handleTimeUpdate (pauseSched : List ℚ) (currentTime : ℚ) (paused : Bool) :
    List PlayerAction :=
  if currentTime = 0 then []
  else
    let shouldPause := pauseSched.any (fun point => decide (|currentTime - point| < 1 / 10))
    if shouldPause && !paused then
      [PlayerAction.pauseVideo, PlayerAction.waitMs 200, PlayerAction.detect]
    else []

/-- The click-variant pause schedule constant (`pausePoints = [6, 10]`). -/
def pausePoints : List ℚ := [6, 10]

/-- The hover-variant pause schedule constant (`pausePoints = [3, 7]`). -/
def hoverPausePoints : List ℚ := [3, 7]

/-- A display context with unit scale used by concrete instances. -/
def unitCtx : VideoCtx :=
  { present := true, nativeW := 100, nativeH := 100, dispW := 100, dispH := 100 }

/-- The concrete context exhibiting a zero native dimension. -/
def zeroDimCtx : VideoCtx :=
  { present := true, nativeW := 0, nativeH := 100, dispW := 640, dispH := 100 }

/-- The synthetic right-angle keypoint list from the spec's test property. -/
def rightAngleKps : List Keypoint :=
  [{ name := "left_shoulder", x := 0, y := 0, score := 1 },
   { name := "left_elbow", x := 1, y := 0, score := 1 },
   { name := "left_wrist", x := 1, y := 1, score := 1 }]

/-- The right-angle landmark list whose shoulder has score 0.29. -/
def lowScoreShoulderKps : List Keypoint :=
  [{ name := "left_shoulder", x := 0, y := 0, score := 29 / 100 },
   { name := "left_elbow", x := 1, y := 0, score := 1 },
   { name := "left_wrist", x := 1, y := 1, score := 1 }]

/-- Observer giving the compositing layer of a primitive: dimming 0, skeleton
lines 1, joint markers 2, tooltips 3. -/
def DrawOp.layer : DrawOp → ℕ
  | DrawOp.dim _ => 0
  | DrawOp.line _ _ => 1
  | DrawOp.marker _ _ => 2
  | DrawOp.tooltip _ _ _ => 3

/-- Two hip keypoints used by the hover-variant order counterexample. -/
def hipL : Keypoint := { name := "left_hip", x := 10, y := 10, score := 1 / 2 }

/-- The right-hip counterpart of `hipL`. -/
def hipR : Keypoint := { name := "right_hip", x := 20, y := 20, score := 1 / 2 }

/-- The op list committed by the hover-variant counterexample cycle. -/
def hoverCexOps : List DrawOp :=
  [DrawOp.line (10, 10) (20, 20), DrawOp.marker (10, 10) "#00FF00",
   DrawOp.marker (20, 20) "#00FF00", DrawOp.dim (-40, -40, 110, 110)]

/-! ## Shared helper lemmas -/

/-- Characterization of a triggering `timeupdate` run: the pause-and-detect
action sequence is issued exactly when the time is nonzero (truthy) and within
tolerance of some schedule entry. -/
lemma handleTimeUpdate_trigger_iff (sched : List ℚ) (t : ℚ) :
    handleTimeUpdate sched t false =
      [PlayerAction.pauseVideo, PlayerAction.waitMs 200, PlayerAction.detect] ↔
    t ≠ 0 ∧ ∃ p ∈ sched, |t - p| < 1 / 10 := by
  simp only [handleTimeUpdate, Bool.not_false, Bool.and_true]
  by_cases ht : t = 0
  · subst ht
    simp
  · rw [if_neg ht]
    by_cases hs : sched.any (fun point => decide (|t - point| < 1 / 10)) = true
    · rw [if_pos hs]
      simp only [List.any_eq_true, decide_eq_true_eq] at hs
      exact iff_of_true rfl ⟨ht, hs⟩
    · rw [if_neg hs]
      simp only [List.any_eq_true, decide_eq_true_eq] at hs
      exact iff_of_false (by simp) (fun h => hs h.2)

/-! ## Claims -/

/-- C4: while playing, a timeupdate at time t issues the pause command, the
200ms settle delay, then one detection pass exactly when t is within 0.1s of a
schedule entry of `pausePoints = [6, 10]`; t = 6.05 triggers it, t = 5.0 does
not, and nothing is issued while already paused. -/
theorem claim_C4_pause_scheduling :
    (∀ t : ℚ, handleTimeUpdate pausePoints t false =
        [PlayerAction.pauseVideo, PlayerAction.waitMs 200, PlayerAction.detect] ↔
        ∃ p ∈ pausePoints, |t - p| < 1 / 10) ∧
    (∀ (sched : List ℚ) (t : ℚ), handleTimeUpdate sched t true = []) ∧
    handleTimeUpdate pausePoints (605 / 100) false =
      [PlayerAction.pauseVideo, PlayerAction.waitMs 200, PlayerAction.detect] ∧
    handleTimeUpdate pausePoints 5 false = [] := by
  refine ⟨?_, ?_, ?_, ?_⟩
  · intro t
    rw [handleTimeUpdate_trigger_iff]
    constructor
    · rintro ⟨-, h⟩
      exact h
    · intro h
      refine ⟨?_, h⟩
      rintro rfl
      rcases h with ⟨p, hp, habs⟩
      simp only [pausePoints, List.mem_cons, List.not_mem_nil, or_false] at hp
      rcases hp with rfl | rfl <;> norm_num [abs_lt] at habs
  · intro sched t
    simp [handleTimeUpdate]
  · norm_num [handleTimeUpdate, pausePoints, abs_lt]
  · norm_num [handleTimeUpdate, pausePoints, abs_lt]

/-- C4 witness: the triggering direction of the characterization applied at the
concrete time 6.05 with schedule entry 6. -/
theorem claim_C4_pause_scheduling_witness :
    handleTimeUpdate pausePoints (605 / 100) false =
      [PlayerAction.pauseVideo, PlayerAction.waitMs 200, PlayerAction.detect] :=
  (claim_C4_pause_scheduling.1 (605 / 100)).mpr
    ⟨6, by norm_num [pausePoints], by norm_num [abs_lt]⟩

/-- C9 counterexample: the schedule entry 0.05 lies within the 0.1s tolerance of
time 0, yet it does fire — a timeupdate at the nonzero time 0.05 triggers the
full pause-and-detect cycle. -/
theorem claim_C9_counterexample :
    handleTimeUpdate [(1 : ℚ) / 20] (1 / 20) false =
      [PlayerAction.pauseVideo, PlayerAction.waitMs 200, PlayerAction.detect] ∧
    |(1 : ℚ) / 20 - 0| < 1 / 10 := by
  constructor
  · norm_num [handleTimeUpdate, abs_lt]
  · norm_num [abs_lt]

/-- C9 amended: a timeupdate whose reported currentTime is exactly 0 never
triggers an automatic pause or detection pass, for every schedule and paused
state (the handler returns immediately on a falsy currentTime); a schedule
entry within 0.1s of time 0 therefore cannot fire at t = 0, though it can still
fire at a nonzero time inside its tolerance window. -/
theorem claim_C9_zero_time_inert :
    ∀ (sched : List ℚ) (paused : Bool), handleTimeUpdate sched 0 paused = [] := by
  intro sched paused
  simp [handleTimeUpdate]

/-- C6 counterexample: with the video element present, a zero native width, and
nonzero display width, `mapToDisplaySpace` does not return the input point
unchanged — the division is performed with no zero-dimension guard (in this
rational model 5 * (640 / 0) = 0; in JavaScript it is Infinity; under neither
semantics is the input returned). -/
theorem claim_C6_counterexample :
    zeroDimCtx.nativeW = 0 ∧ mapToDisplaySpace zeroDimCtx 5 7 ≠ (5, 7) := by
  constructor
  · rfl
  · norm_num [mapToDisplaySpace, zeroDimCtx]

/-- C6 amended: `mapToDisplaySpace` returns the input unchanged exactly in the
guard case that the video element is absent; it contains no zero-dimension
check, so with the element present and a zero native dimension it still scales
(here producing (0, 7) from (5, 7)) instead of returning the input. -/
theorem claim_C6_no_zero_guard :
    (∀ (v : VideoCtx) (x y : ℚ), v.present = false → mapToDisplaySpace v x y = (x, y)) ∧
    mapToDisplaySpace zeroDimCtx 5 7 = (0, 7) := by
  constructor
  · intro v x y hv
    simp [mapToDisplaySpace, hv]
  · norm_num [mapToDisplaySpace, zeroDimCtx]

/-- C6 witness: the absent-element guard applied to a concrete context. -/
theorem claim_C6_no_zero_guard_witness :
    mapToDisplaySpace { present := false, nativeW := 0, nativeH := 0, dispW := 0, dispH := 0 } 5 7 =
      (5, 7) :=
  claim_C6_no_zero_guard.1 { present := false, nativeW := 0, nativeH := 0, dispW := 0, dispH := 0 }
    5 7 rfl

/-- C8: with all four dimensions nonzero, mapping a point to display space and
then applying the export-time inverse scale (native over display, as in
`saveFrameWithOverlays`) recovers the point exactly over rational arithmetic. -/
theorem claim_C8_roundtrip (v : VideoCtx) (x y : ℚ) (hp : v.present = true)
    (hW : v.nativeW ≠ 0) (hH : v.nativeH ≠ 0) (hW2 : v.dispW ≠ 0) (hH2 : v.dispH ≠ 0) :
    saveFrameScale v (mapToDisplaySpace v x y).1 (mapToDisplaySpace v x y).2 = (x, y) := by
  simp only [mapToDisplaySpace, saveFrameScale, hp]
  norm_num
  constructor
  · field_simp
  · field_simp

/-- C8 witness: the round trip at native 1920×1080, display 640×360,
point (960, 600). -/
theorem claim_C8_roundtrip_witness :
    saveFrameScale { present := true, nativeW := 1920, nativeH := 1080, dispW := 640, dispH := 360 }
      (mapToDisplaySpace { present := true, nativeW := 1920, nativeH := 1080, dispW := 640, dispH := 360 } 960 600).1
      (mapToDisplaySpace { present := true, nativeW := 1920, nativeH := 1080, dispW := 640, dispH := 360 } 960 600).2 =
      (960, 600) :=
  claim_C8_roundtrip _ 960 600 rfl (by norm_num) (by norm_num) (by norm_num) (by norm_num)

/-- Value of `Math.atan2(1, 0)`. -/
lemma atan2_one_zero : atan2 1 0 = Real.pi / 2 := by
  unfold atan2
  rw [show ({ re := 0, im := 1 } : ℂ) = Complex.I from rfl, Complex.arg_I]

/-- Value of `Math.atan2(0, -1)`. -/
lemma atan2_zero_negone : atan2 0 (-1) = Real.pi := by
  unfold atan2
  rw [show ({ re := -1, im := 0 } : ℂ) = (-1 : ℂ) from by apply Complex.ext <;> simp,
    Complex.arg_neg_one]

/-- The right-angle configuration shoulder (0,0), elbow (1,0), wrist (1,1)
evaluates to 90 degrees, for any names and scores. -/
lemma jointAngleDeg_right_angle (n1 n2 n3 : String) (s1 s2 s3 : ℚ) :
    jointAngleDeg { name := n1, x := 0, y := 0, score := s1 }
      { name := n2, x := 1, y := 0, score := s2 }
      { name := n3, x := 1, y := 1, score := s3 } = 90 := by
  unfold jointAngleDeg
  norm_num
  rw [atan2_one_zero, atan2_zero_negone]
  have hval : (Real.pi / 2 - Real.pi) * (180 / Real.pi) = -90 := by
    have hpi : (Real.pi : ℝ) ≠ 0 := Real.pi_ne_zero
    field_simp
    ring
  rw [hval]
  have hfloor : jsRound (-90 : ℝ) = -90 := by
    unfold jsRound
    rw [Int.floor_eq_iff]
    constructor <;> norm_num
  rw [hfloor]
  decide

/-- C2: `calculateJointAngle` returns the abs-rounded-degrees angle
`jointAngleDeg` of shoulder/elbow/wrist for elbow names (hip/knee/ankle for
knee names), with the side chosen by a `'left'` substring match; it returns
`null` for any other joint name (in particular `left_hip`) and whenever one of
the three required landmarks is missing; shoulder (0,0), elbow (1,0),
wrist (1,1) gives 90. -/
theorem claim_C2_joint_angle_contract :
    (∀ (m : String → Option Keypoint) (name side : String) (a b c : Keypoint),
      containsStr name "elbow" = true →
      side = (if containsStr name "left" then "left" else "right") →
      m (side ++ "_shoulder") = some a →
      m (side ++ "_elbow") = some b →
      m (side ++ "_wrist") = some c →
      calculateJointAngle m name = some (jointAngleDeg a b c)) ∧
    (∀ (m : String → Option Keypoint) (name side : String) (a b c : Keypoint),
      containsStr name "elbow" = false →
      containsStr name "knee" = true →
      side = (if containsStr name "left" then "left" else "right") →
      m (side ++ "_hip") = some a →
      m (side ++ "_knee") = some b →
      m (side ++ "_ankle") = some c →
      calculateJointAngle m name = some (jointAngleDeg a b c)) ∧
    (∀ (m : String → Option Keypoint) (name : String),
      containsStr name "elbow" = false → containsStr name "knee" = false →
      calculateJointAngle m name = none) ∧
    (∀ m : String → Option Keypoint, calculateJointAngle m "left_hip" = none) ∧
    (∀ (m : String → Option Keypoint) (name side : String),
      containsStr name "elbow" = true →
      side = (if containsStr name "left" then "left" else "right") →
      (m (side ++ "_shoulder") = none ∨ m (side ++ "_elbow") = none ∨
        m (side ++ "_wrist") = none) →
      calculateJointAngle m name = none) ∧
    (∀ (m : String → Option Keypoint) (name side : String),
      containsStr name "elbow" = false →
      containsStr name "knee" = true →
      side = (if containsStr name "left" then "left" else "right") →
      (m (side ++ "_hip") = none ∨ m (side ++ "_knee") = none ∨
        m (side ++ "_ankle") = none) →
      calculateJointAngle m name = none) ∧
    calculateJointAngle (buildKeypointMap rightAngleKps) "left_elbow" = some 90 := by
  refine ⟨?_, ?_, ?_, ?_, ?_, ?_, ?_⟩
  · intro m name side a b c he hside ha hb hc
    subst hside
    simp only [calculateJointAngle, he, if_true]
    rw [ha, hb, hc]
  · intro m name side a b c he hk hside ha hb hc
    subst hside
    simp only [calculateJointAngle, he, hk, if_true, Bool.false_eq_true, if_false]
    rw [ha, hb, hc]
  · intro m name he hk
    simp [calculateJointAngle, he, hk]
  · intro m
    have he : containsStr "left_hip" "elbow" = false := by decide
    have hk : containsStr "left_hip" "knee" = false := by decide
    simp [calculateJointAngle, he, hk]
  · intro m name side he hside h
    subst hside
    simp only [calculateJointAngle, he, if_true]
    rcases hA : m ((if containsStr name "left" then "left" else "right") ++ "_shoulder")
      with _ | a <;>
      rcases hB : m ((if containsStr name "left" then "left" else "right") ++ "_elbow")
        with _ | b <;>
      rcases hC : m ((if containsStr name "left" then "left" else "right") ++ "_wrist")
        with _ | c <;>
      try rfl
    exfalso
    rcases h with h | h | h
    · rw [h] at hA; exact Option.noConfusion hA
    · rw [h] at hB; exact Option.noConfusion hB
    · rw [h] at hC; exact Option.noConfusion hC
  · intro m name side he hk hside h
    subst hside
    simp only [calculateJointAngle, he, hk, if_true, Bool.false_eq_true, if_false]
    rcases hA : m ((if containsStr name "left" then "left" else "right") ++ "_hip")
      with _ | a <;>
      rcases hB : m ((if containsStr name "left" then "left" else "right") ++ "_knee")
        with _ | b <;>
      rcases hC : m ((if containsStr name "left" then "left" else "right") ++ "_ankle")
        with _ | c <;>
      try rfl
    exfalso
    rcases h with h | h | h
    · rw [h] at hA; exact Option.noConfusion hA
    · rw [h] at hB; exact Option.noConfusion hB
    · rw [h] at hC; exact Option.noConfusion hC
  · have he : containsStr "left_elbow" "elbow" = true := by decide
    have hl : containsStr "left_elbow" "left" = true := by decide
    simp only [calculateJointAngle, he, hl, if_true]
    have hS : buildKeypointMap rightAngleKps ("left" ++ "_shoulder") =
        some { name := "left_shoulder", x := 0, y := 0, score := 1 } := by
      simp [buildKeypointMap, rightAngleKps]
    have hE : buildKeypointMap rightAngleKps ("left" ++ "_elbow") =
        some { name := "left_elbow", x := 1, y := 0, score := 1 } := by
      simp [buildKeypointMap, rightAngleKps]
    have hW : buildKeypointMap rightAngleKps ("left" ++ "_wrist") =
        some { name := "left_wrist", x := 1, y := 1, score := 1 } := by
      simp [buildKeypointMap, rightAngleKps]
    rw [hS, hE, hW]
    exact congrArg some (jointAngleDeg_right_angle _ _ _ _ _ _)

/-- C2 witness: the elbow branch applied to the concrete right-angle map. -/
theorem claim_C2_joint_angle_contract_witness :
    calculateJointAngle (buildKeypointMap rightAngleKps) "left_elbow" =
      some (jointAngleDeg { name := "left_shoulder", x := 0, y := 0, score := 1 }
        { name := "left_elbow", x := 1, y := 0, score := 1 }
        { name := "left_wrist", x := 1, y := 1, score := 1 }) :=
  claim_C2_joint_angle_contract.1 (buildKeypointMap rightAngleKps) "left_elbow" "left"
    _ _ _ (by decide) (by decide)
    (by simp [buildKeypointMap, rightAngleKps])
    (by simp [buildKeypointMap, rightAngleKps])
    (by simp [buildKeypointMap, rightAngleKps])

/-- The square-root comparison against the 15px radius is equivalent to the
exact rational comparison of squared lengths. -/
lemma distanceToPointer_lt15_iff (cx cy : ℚ) (p : ℚ × ℚ) :
    distanceToPointer cx cy p < 15 ↔ (cx - p.1) ^ 2 + (cy - p.2) ^ 2 < 225 := by
  unfold distanceToPointer
  rw [Real.sqrt_lt' (by norm_num : (0 : ℝ) < 15)]
  rw [show ((15 : ℝ) ^ 2) = (((225 : ℚ) : ℝ)) from by norm_num]
  exact Rat.cast_lt

/-- Splitting lemma for `List.find?`: a successful find returns the first
element satisfying the predicate, in encounter order. -/
lemma find?_split {α : Type} (p : α → Bool) :
    ∀ (l : List α) (a : α), l.find? p = some a →
      ∃ l1 l2, l = l1 ++ a :: l2 ∧ (∀ x ∈ l1, p x = false) ∧ p a = true := by
  intro l
  induction l with
  | nil => intro a h; simp [List.find?] at h
  | cons b bs ih =>
    intro a h
    by_cases hb : p b = true
    · rw [List.find?_cons_of_pos _ hb] at h
      obtain rfl : b = a := by injection h
      exact ⟨[], bs, rfl, by simp, hb⟩
    · rw [List.find?_cons_of_neg _ (by simpa using hb)] at h
      obtain ⟨l1, l2, heq, hfl, hpa⟩ := ih a h
      refine ⟨b :: l1, l2, by rw [heq, List.cons_append], ?_, hpa⟩
      intro x hx
      rcases List.mem_cons.mp hx with rfl | hx
      · simpa using hb
      · exact hfl x hx

/-- Characterization of the hit-test predicate: it passes exactly the keypoints
whose score is at least 0.3 and whose mapped distance to the pointer is strictly
below 15px. -/
lemma hitTestPred_eq_true_iff (v : VideoCtx) (cx cy : ℚ) (kp : Keypoint) :
    hitTestPred v cx cy kp = true ↔
      3 / 10 ≤ kp.score ∧ distanceToPointer cx cy (mapToDisplaySpace v kp.x kp.y) < 15 := by
  unfold hitTestPred
  by_cases h : kp.score = 0 ∨ kp.score < 3 / 10
  · rw [if_pos h]
    simp only [Bool.false_eq_true, false_iff]
    rintro ⟨hge, -⟩
    rcases h with h0 | hlt
    · rw [h0] at hge; norm_num at hge
    · exact absurd hge (not_le.mpr hlt)
  · rw [if_neg h]
    push_neg at h
    simp only [decide_eq_true_eq]
    constructor
    · intro hd
      exact ⟨h.2, hd⟩
    · intro hd
      exact hd.2

/-- C5: the hit test returns the first (encounter-order) keypoint passing the
confidence filter whose mapped distance to the pointer is strictly below 15px;
14.9px hits, 15.1px does not; a farther keypoint earlier in the list wins over
a nearer later one; no hit clears the previously selected joint detail. -/
theorem claim_C5_hit_testing :
    (∀ (v : VideoCtx) (cx cy : ℚ) (kps : List Keypoint) (kp : Keypoint),
      jointHit v cx cy kps = some kp →
      ∃ l1 l2, kps = l1 ++ kp :: l2 ∧ (∀ x ∈ l1, hitTestPred v cx cy x = false) ∧
        hitTestPred v cx cy kp = true) ∧
    (∀ (v : VideoCtx) (cx cy : ℚ) (kp : Keypoint),
      hitTestPred v cx cy kp = true ↔
        3 / 10 ≤ kp.score ∧ distanceToPointer cx cy (mapToDisplaySpace v kp.x kp.y) < 15) ∧
    jointHit unitCtx (10 + 149 / 10) 10
      [{ name := "left_knee", x := 10, y := 10, score := 1 / 2 }] =
      some { name := "left_knee", x := 10, y := 10, score := 1 / 2 } ∧
    jointHit unitCtx (10 + 151 / 10) 10
      [{ name := "left_knee", x := 10, y := 10, score := 1 / 2 }] = none ∧
    jointHit unitCtx 0 0
      [{ name := "far", x := 10, y := 0, score := 1 / 2 },
       { name := "near", x := 1, y := 0, score := 1 / 2 }] =
      some { name := "far", x := 10, y := 0, score := 1 / 2 } ∧
    (∀ (v : VideoCtx) (cx cy : ℚ) (kps : List Keypoint) (prev : Option ClickedJoint),
      jointHit v cx cy kps = none →
      handleCanvasClick v true true (some kps) cx cy prev = none) := by
  refine ⟨?_, ?_, ?_, ?_, ?_, ?_⟩
  · intro v cx cy kps kp h
    exact find?_split _ kps kp h
  · intro v cx cy kp
    exact hitTestPred_eq_true_iff v cx cy kp
  · norm_num [jointHit, List.find?, hitTestPred, unitCtx, mapToDisplaySpace,
      distanceToPointer_lt15_iff]
  · norm_num [jointHit, List.find?, hitTestPred, unitCtx, mapToDisplaySpace,
      distanceToPointer_lt15_iff]
  · norm_num [jointHit, List.find?, hitTestPred, unitCtx, mapToDisplaySpace,
      distanceToPointer_lt15_iff]
  · intro v cx cy kps prev h
    simp [handleCanvasClick, h]

/-- C5 witness: a miss at 15.1px clears a previously selected joint detail. -/
theorem claim_C5_hit_testing_witness :
    handleCanvasClick unitCtx true true
      (some [{ name := "left_knee", x := 10, y := 10, score := 1 / 2 }])
      (10 + 151 / 10) 10 (some { name := "left_knee", angle := none, x := 3, y := 4 }) =
      none :=
  claim_C5_hit_testing.2.2.2.2.2 unitCtx (10 + 151 / 10) 10
    [{ name := "left_knee", x := 10, y := 10, score := 1 / 2 }]
    (some { name := "left_knee", angle := none, x := 3, y := 4 })
    claim_C5_hit_testing.2.2.2.1

/-- C1 counterexample: a keypoint with score exactly 0.3 — hence score ≤ 0.3 —
passes the hit-test filter and is returned as a hit, so the strict filter
(score > 0.3 passes) is not what hit-testing applies. -/
theorem claim_C1_counterexample :
    hitTestPred unitCtx 10 10 { name := "left_knee", x := 10, y := 10, score := 3 / 10 } =
      true ∧
    jointHit unitCtx 10 10 [{ name := "left_knee", x := 10, y := 10, score := 3 / 10 }] =
      some { name := "left_knee", x := 10, y := 10, score := 3 / 10 } ∧
    ({ name := "left_knee", x := 10, y := 10, score := 3 / 10 } : Keypoint).score ≤ 3 / 10 := by
  refine ⟨?_, ?_, by norm_num⟩
  · norm_num [hitTestPred, unitCtx, mapToDisplaySpace, distanceToPointer_lt15_iff]
  · norm_num [jointHit, List.find?, hitTestPred, unitCtx, mapToDisplaySpace,
      distanceToPointer_lt15_iff]

/-- C1 amended: the strict filter score > 0.3 guards skeleton segments,
click-variant markers, and both bounding-box/dimming paths (0.29 and exactly
0.3 excluded, 0.31 included); hit-testing and hover-variant marker drawing
instead pass any keypoint with score ≥ 0.3; and the keypoint map feeding
joint-angle computation applies no score filter at all, so a keypoint with
score 0.29 still serves as an angle landmark. -/
theorem claim_C1_confidence_filters :
    (∀ a b : Keypoint, bothEndpointsOk a b = true ↔
      3 / 10 < a.score ∧ 3 / 10 < b.score) ∧
    (∀ kp : Keypoint, scoreOkStrict kp = true ↔ 3 / 10 < kp.score) ∧
    (∀ (v : VideoCtx) (cx cy : ℚ) (kp : Keypoint),
      hitTestPred v cx cy kp = true → 3 / 10 ≤ kp.score) ∧
    (∀ (v : VideoCtx) (paused : Bool) (mx my : ℚ) (m : String → Option Keypoint)
      (acc : List DrawOp) (kp : Keypoint), kp.score < 3 / 10 →
      hoverKeypointStep v paused mx my m acc kp = acc) ∧
    (∀ (v : VideoCtx) (mx my : ℚ) (m : String → Option Keypoint)
      (acc : List DrawOp) (kp : Keypoint), 3 / 10 ≤ kp.score →
      hoverKeypointStep v true mx my m acc kp =
        acc ++ [DrawOp.marker (mapToDisplaySpace v kp.x kp.y) (getJointColor kp.name)] ∨
      hoverKeypointStep v true mx my m acc kp =
        (acc ++ [DrawOp.marker (mapToDisplaySpace v kp.x kp.y) (getJointColor kp.name)]) ++
          [DrawOp.tooltip (mapToDisplaySpace v kp.x kp.y)
            (if kp.name = "" then "Unknown Joint" else kp.name)
            (calculateJointAngle m kp.name)]) ∧
    (∀ kp : Keypoint, kp.name ≠ "" → buildKeypointMap [kp] kp.name = some kp) ∧
    calculateJointAngle (buildKeypointMap lowScoreShoulderKps) "left_elbow" = some 90 ∧
    calculateJointAngle (buildKeypointMap (lowScoreShoulderKps.drop 1)) "left_elbow" = none ∧
    scoreOkStrict { name := "kp", x := 0, y := 0, score := 29 / 100 } = false ∧
    scoreOkStrict { name := "kp", x := 0, y := 0, score := 31 / 100 } = true ∧
    scoreOkStrict { name := "kp", x := 0, y := 0, score := 3 / 10 } = false := by
  refine ⟨?_, ?_, ?_, ?_, ?_, ?_, ?_, ?_, ?_, ?_, ?_⟩
  · intro a b
    unfold bothEndpointsOk
    simp only [Bool.and_eq_true, decide_eq_true_eq]
    constructor
    · rintro ⟨⟨⟨-, -⟩, h3⟩, h4⟩
      exact ⟨h3, h4⟩
    · rintro ⟨h3, h4⟩
      refine ⟨⟨⟨?_, ?_⟩, h3⟩, h4⟩
      · exact (lt_trans (by norm_num) h3).ne'
      · exact (lt_trans (by norm_num) h4).ne'
  · intro kp
    unfold scoreOkStrict
    simp only [Bool.and_eq_true, decide_eq_true_eq]
    constructor
    · rintro ⟨-, h⟩
      exact h
    · intro h
      exact ⟨(lt_trans (by norm_num) h).ne', h⟩
  · intro v cx cy kp h
    exact ((hitTestPred_eq_true_iff v cx cy kp).mp h).1
  · intro v paused mx my m acc kp h
    unfold hoverKeypointStep
    rw [if_pos (Or.inr h)]
  · intro v mx my m acc kp h
    have hcond : ¬(kp.score = 0 ∨ kp.score < 3 / 10) := by
      push_neg
      exact ⟨fun h0 => by rw [h0] at h; norm_num at h, h⟩
    unfold hoverKeypointStep
    rw [if_neg hcond]
    simp only [if_pos rfl]
    by_cases hd : distanceToPointer mx my (mapToDisplaySpace v kp.x kp.y) < 15
    · right
      rw [if_pos hd, if_pos trivial]
    · left
      rw [if_neg hd, if_pos trivial]
  · intro kp h
    simp [buildKeypointMap, h]
  · have he : containsStr "left_elbow" "elbow" = true := by decide
    have hl : containsStr "left_elbow" "left" = true := by decide
    simp only [calculateJointAngle, he, hl, if_true]
    have hS : buildKeypointMap lowScoreShoulderKps ("left" ++ "_shoulder") =
        some { name := "left_shoulder", x := 0, y := 0, score := 29 / 100 } := by
      simp [buildKeypointMap, lowScoreShoulderKps]
    have hE : buildKeypointMap lowScoreShoulderKps ("left" ++ "_elbow") =
        some { name := "left_elbow", x := 1, y := 0, score := 1 } := by
      simp [buildKeypointMap, lowScoreShoulderKps]
    have hW : buildKeypointMap lowScoreShoulderKps ("left" ++ "_wrist") =
        some { name := "left_wrist", x := 1, y := 1, score := 1 } := by
      simp [buildKeypointMap, lowScoreShoulderKps]
    rw [hS, hE, hW]
    exact congrArg some (jointAngleDeg_right_angle _ _ _ _ _ _)
  · have he : containsStr "left_elbow" "elbow" = true := by decide
    have hl : containsStr "left_elbow" "left" = true := by decide
    simp only [calculateJointAngle, he, hl, if_true]
    have hS : buildKeypointMap (lowScoreShoulderKps.drop 1) ("left" ++ "_shoulder") = none := by
      simp [buildKeypointMap, lowScoreShoulderKps]
    rw [hS]
  · norm_num [scoreOkStrict]
  · norm_num [scoreOkStrict]
  · norm_num [scoreOkStrict]

/-- C1 witness: the unfiltered keypoint map retains a 0.29-score keypoint under
its name. -/
theorem claim_C1_confidence_filters_witness :
    buildKeypointMap [{ name := "left_shoulder", x := 0, y := 0, score := 29 / 100 }]
      "left_shoulder" =
      some { name := "left_shoulder", x := 0, y := 0, score := 29 / 100 } :=
  claim_C1_confidence_filters.2.2.2.2.2.1
    { name := "left_shoulder", x := 0, y := 0, score := 29 / 100 } (by decide)

/-- C3 counterexample: a cycle whose estimator returns no poses leaves the
canvas blank — the previously drawn overlay content is destroyed, because
`clearRect` runs before the estimator is awaited. -/
theorem claim_C3_counterexample :
    (clickDetectAndDraw true unitCtx false true (DetectResult.ok [])
      [DrawOp.marker (1, 1) "#FFFFFF"] (some [])).1 = [] ∧
    ([DrawOp.marker (1, 1) "#FFFFFF"] : List DrawOp) ≠ [] := by
  constructor
  · norm_num [clickDetectAndDraw]
  · simp

/-- C3 amended: both variants clear the canvas before awaiting the estimator;
a cycle whose result is empty (no poses, or a first pose without keypoints) or
that throws therefore leaves the canvas blank — not the previous overlay — and
returns normally (the exception is caught, the loop continues).  The previous
content survives a cycle only when its entry guards fail. -/
theorem claim_C3_empty_result_blanks :
    (∀ (v : VideoCtx) (sd : Bool) (canvas : List DrawOp) (cur : Option (List Keypoint)),
      clickDetectAndDraw true v sd true DetectResult.throws canvas cur = ([], cur)) ∧
    (∀ (v : VideoCtx) (sd : Bool) (canvas : List DrawOp) (cur : Option (List Keypoint)),
      clickDetectAndDraw true v sd true (DetectResult.ok []) canvas cur = ([], none)) ∧
    (∀ (v : VideoCtx) (sd : Bool) (canvas : List DrawOp) (cur : Option (List Keypoint))
      (p : Pose) (ps : List Pose), p.keypoints = none →
      clickDetectAndDraw true v sd true (DetectResult.ok (p :: ps)) canvas cur = ([], none)) ∧
    (∀ (v : VideoCtx) (sd : Bool) (mx my : ℚ) (canvas : List DrawOp),
      ¬(v.nativeW = 0 ∨ v.nativeH = 0) →
      hoverDetectAndDraw true v sd true mx my DetectResult.throws canvas = []) ∧
    (∀ (v : VideoCtx) (sd : Bool) (mx my : ℚ) (canvas : List DrawOp),
      ¬(v.nativeW = 0 ∨ v.nativeH = 0) →
      hoverDetectAndDraw true v sd true mx my (DetectResult.ok []) canvas = []) ∧
    (∀ (v : VideoCtx) (sd : Bool) (mx my : ℚ) (canvas : List DrawOp)
      (p : Pose) (ps : List Pose), ¬(v.nativeW = 0 ∨ v.nativeH = 0) → p.keypoints = none →
      hoverDetectAndDraw true v sd true mx my (DetectResult.ok (p :: ps)) canvas = []) ∧
    (∀ (v : VideoCtx) (sd paused : Bool) (res : DetectResult) (canvas : List DrawOp)
      (cur : Option (List Keypoint)),
      clickDetectAndDraw false v sd paused res canvas cur = (canvas, cur)) ∧
    (∀ (v : VideoCtx) (sd paused : Bool) (mx my : ℚ) (res : DetectResult)
      (canvas : List DrawOp),
      hoverDetectAndDraw false v sd paused mx my res canvas = canvas) := by
  refine ⟨?_, ?_, ?_, ?_, ?_, ?_, ?_, ?_⟩
  · intro v sd canvas cur
    simp [clickDetectAndDraw]
  · intro v sd canvas cur
    simp [clickDetectAndDraw]
  · intro v sd canvas cur p ps h
    simp [clickDetectAndDraw, h]
  · intro v sd mx my canvas h
    simp [hoverDetectAndDraw, h]
  · intro v sd mx my canvas h
    simp [hoverDetectAndDraw, h]
  · intro v sd mx my canvas p ps h hk
    simp [hoverDetectAndDraw, h, hk]
  · intro v sd paused res canvas cur
    simp [clickDetectAndDraw]
  · intro v sd paused mx my res canvas
    simp [hoverDetectAndDraw]

/-- C3 witness: a throwing cycle with the unit context blanks a nonempty
canvas. -/
theorem claim_C3_empty_result_blanks_witness :
    hoverDetectAndDraw true unitCtx true true 0 0 DetectResult.throws
      [DrawOp.marker (1, 1) "#FFFFFF"] = [] :=
  claim_C3_empty_result_blanks.2.2.2.1 unitCtx true 0 0
    [DrawOp.marker (1, 1) "#FFFFFF"] (by norm_num [unitCtx])

/-- Every op committed by the skeleton pass is a line segment. -/
lemma skeletonOps_layer (v : VideoCtx) (m : String → Option Keypoint) :
    ∀ op ∈ skeletonOps v m, op.layer = 1 := by
  intro op hop
  simp only [skeletonOps, List.mem_filterMap] at hop
  obtain ⟨pr, -, hpr⟩ := hop
  split at hpr
  · split at hpr
    · obtain rfl := Option.some.inj hpr
      rfl
    · exact absurd hpr (by simp)
  · exact absurd hpr (by simp)

/-- Every op committed by the click-variant marker pass is a marker. -/
lemma clickMarkerOps_layer (v : VideoCtx) (kps : List Keypoint) :
    ∀ op ∈ clickMarkerOps v kps, op.layer = 2 := by
  intro op hop
  simp only [clickMarkerOps, List.mem_filterMap] at hop
  obtain ⟨kp, -, hkp⟩ := hop
  by_cases hok : scoreOkStrict kp = true
  · rw [if_pos hok] at hkp
    obtain rfl := Option.some.inj hkp
    rfl
  · rw [if_neg hok] at hkp
    exact absurd hkp (by simp)

/-- Every op committed by the click-variant dimming pass is a dim layer. -/
lemma clickDimOps_layer (v : VideoCtx) (kps : List Keypoint) :
    ∀ op ∈ clickDimOps v kps, op.layer = 0 := by
  intro op hop
  simp only [clickDimOps] at hop
  rcases hf : kps.filter scoreOkStrict with _ | ⟨k, ks⟩ <;> rw [hf] at hop
  · simp at hop
  · simp only [List.map_cons] at hop
    simp only [List.mem_singleton] at hop
    subst hop
    rfl

/-- Every op committed by the hover-variant dimming pass is a dim layer. -/
lemma hoverDimOps_layer (v : VideoCtx) (bb : BoundingBox) :
    ∀ op ∈ hoverDimOps v bb, op.layer = 0 := by
  intro op hop
  simp only [hoverDimOps, List.mem_singleton] at hop
  subst hop
  rfl

/-- One hover keypoint step appends only markers and tooltips. -/
lemma hoverKeypointStep_extends (v : VideoCtx) (paused : Bool) (mx my : ℚ)
    (m : String → Option Keypoint) (acc : List DrawOp) (kp : Keypoint) :
    ∃ extra, hoverKeypointStep v paused mx my m acc kp = acc ++ extra ∧
      ∀ op ∈ extra, op.layer = 2 ∨ op.layer = 3 := by
  unfold hoverKeypointStep
  by_cases h1 : kp.score = 0 ∨ kp.score < 3 / 10
  · rw [if_pos h1]
    exact ⟨[], by simp, by simp⟩
  · rw [if_neg h1]
    by_cases hp : paused = true
    · rw [if_pos hp]
      by_cases hd : distanceToPointer mx my (mapToDisplaySpace v kp.x kp.y) < 15
      · rw [if_pos hd]
        refine ⟨[DrawOp.marker (mapToDisplaySpace v kp.x kp.y) (getJointColor kp.name),
          DrawOp.tooltip (mapToDisplaySpace v kp.x kp.y)
            (if kp.name = "" then "Unknown Joint" else kp.name)
            (calculateJointAngle m kp.name)], ?_, ?_⟩
        · rw [List.append_assoc]
          rfl
        · intro op hop
          rcases List.mem_cons.mp hop with rfl | hop
          · left; rfl
          · rcases List.mem_singleton.mp hop with rfl
            right; rfl
      · rw [if_neg hd]
        refine ⟨[DrawOp.marker (mapToDisplaySpace v kp.x kp.y) (getJointColor kp.name)],
          rfl, ?_⟩
        intro op hop
        rcases List.mem_singleton.mp hop with rfl
        left; rfl
    · rw [if_neg hp]
      exact ⟨[], by simp, by simp⟩

/-- The hover marker fold appends only markers and tooltips to its accumulator. -/
lemma hoverMarkerFold_extends (v : VideoCtx) (paused : Bool) (mx my : ℚ)
    (m : String → Option Keypoint) :
    ∀ (kps : List Keypoint) (acc : List DrawOp),
      ∃ extra, kps.foldl (hoverKeypointStep v paused mx my m) acc = acc ++ extra ∧
        ∀ op ∈ extra, op.layer = 2 ∨ op.layer = 3 := by
  intro kps
  induction kps with
  | nil => intro acc; exact ⟨[], by simp, by simp⟩
  | cons k ks ih =>
    intro acc
    obtain ⟨e1, he1, hl1⟩ := hoverKeypointStep_extends v paused mx my m acc k
    obtain ⟨e2, he2, hl2⟩ := ih (acc ++ e1)
    refine ⟨e1 ++ e2, ?_, ?_⟩
    · rw [List.foldl_cons, he1, he2, List.append_assoc]
    · intro op hop
      rcases List.mem_append.mp hop with h | h
      · exact hl1 op h
      · exact hl2 op h

/-- Structure of one hover-variant per-pose draw: skeleton lines first, then
markers and tooltips, then dim layers; any dim layer implies the bounding box
over the pose's keypoints exists with strictly positive width and height. -/
lemma hoverPoseOps_structure (v : VideoCtx) (sd paused : Bool) (mx my : ℚ) (pose : Pose) :
    ∃ lines mids dims, hoverPoseOps v sd paused mx my pose = lines ++ mids ++ dims ∧
      (∀ op ∈ lines, DrawOp.layer op = 1) ∧
      (∀ op ∈ mids, DrawOp.layer op = 2 ∨ DrawOp.layer op = 3) ∧
      (∀ op ∈ dims, DrawOp.layer op = 0) ∧
      (dims ≠ [] → ∃ kps bb, pose.keypoints = some kps ∧
        calculateBoundingBox kps = some bb ∧ 0 < bb.width ∧ 0 < bb.height) := by
  by_cases hs : pose.score = 0 ∨ pose.score < 3 / 10
  · refine ⟨[], [], [], ?_, by simp, by simp, by simp, by simp⟩
    simp [hoverPoseOps, hs]
  · rcases hk : pose.keypoints with _ | kps
    · refine ⟨[], [], [], ?_, by simp, by simp, by simp, by simp⟩
      simp [hoverPoseOps, hs, hk]
    · rcases kps with _ | ⟨k, ks⟩
      · refine ⟨[], [], [], ?_, by simp, by simp, by simp, by simp⟩
        simp [hoverPoseOps, hs, hk]
      · obtain ⟨extra, hex, hlx⟩ :=
          hoverMarkerFold_extends v paused mx my (buildKeypointMap (k :: ks)) (k :: ks) []
        rw [List.nil_append] at hex
        have hlines : ∀ op ∈ (if paused = true then
            skeletonOps v (buildKeypointMap (k :: ks)) else []), DrawOp.layer op = 1 := by
          intro op hop
          by_cases hp : paused = true
          · rw [if_pos hp] at hop
            exact skeletonOps_layer v (buildKeypointMap (k :: ks)) op hop
          · rw [if_neg hp] at hop
            exact absurd hop (List.not_mem_nil op)
        by_cases hsd : sd = true
        · rcases hbb : calculateBoundingBox (k :: ks) with _ | bb
          · refine ⟨(if paused = true then skeletonOps v (buildKeypointMap (k :: ks)) else []),
              extra, [], ?_, hlines, hlx, by simp, by simp⟩
            simp only [hoverPoseOps, hk, if_neg hs, if_pos hsd, hbb]
            rw [hex]
          · by_cases hpos : 0 < bb.width ∧ 0 < bb.height
            · refine ⟨(if paused = true then skeletonOps v (buildKeypointMap (k :: ks)) else []),
                extra, hoverDimOps v bb, ?_, hlines, hlx, hoverDimOps_layer v bb,
                fun _ => ⟨k :: ks, bb, rfl, hbb, hpos.1, hpos.2⟩⟩
              simp only [hoverPoseOps, hk, if_neg hs, if_pos hsd, hbb, if_pos hpos]
              rw [hex]
            · refine ⟨(if paused = true then skeletonOps v (buildKeypointMap (k :: ks)) else []),
                extra, [], ?_, hlines, hlx, by simp, by simp⟩
              simp only [hoverPoseOps, hk, if_neg hs, if_pos hsd, hbb, if_neg hpos]
              rw [hex]
        · refine ⟨(if paused = true then skeletonOps v (buildKeypointMap (k :: ks)) else []),
            extra, [], ?_, hlines, hlx, by simp, by simp⟩
          simp only [hoverPoseOps, hk, if_neg hs, if_neg hsd]
          rw [hex]

/-- Folding `min` over a list of copies of the seed returns the seed. -/
lemma jsMinFold_all_eq (a : ℚ) : ∀ l : List ℚ, (∀ x ∈ l, x = a) → jsMinFold a l = a := by
  intro l
  induction l with
  | nil => intro _; rfl
  | cons x xs ih =>
    intro h
    have hx : x = a := h x (by simp)
    have hxs : ∀ y ∈ xs, y = a := fun y hy => h y (by simp [hy])
    simp only [jsMinFold, List.foldl_cons, hx, min_self]
    simpa [jsMinFold] using ih hxs

/-- Folding `max` over a list of copies of the seed returns the seed. -/
lemma jsMaxFold_all_eq (a : ℚ) : ∀ l : List ℚ, (∀ x ∈ l, x = a) → jsMaxFold a l = a := by
  intro l
  induction l with
  | nil => intro _; rfl
  | cons x xs ih =>
    intro h
    have hx : x = a := h x (by simp)
    have hxs : ∀ y ∈ xs, y = a := fun y hy => h y (by simp [hy])
    simp only [jsMaxFold, List.foldl_cons, hx, max_self]
    simpa [jsMaxFold] using ih hxs

/-- When all qualifying keypoints share the x-coordinate a, the bounding box
exists and has width 0. -/
lemma calculateBoundingBox_width_zero (kps : List Keypoint) (k : Keypoint)
    (ks : List Keypoint) (a : ℚ) (hf : kps.filter scoreOkStrict = k :: ks)
    (ha : ∀ q ∈ kps.filter scoreOkStrict, q.x = a) :
    ∃ bb, calculateBoundingBox kps = some bb ∧ bb.width = 0 := by
  have hk : k.x = a := ha k (hf ▸ List.mem_cons_self k ks)
  have hks : ∀ q ∈ ks.map Keypoint.x, q = a := by
    intro q hq
    obtain ⟨kp, hkp, rfl⟩ := List.mem_map.mp hq
    exact ha kp (hf ▸ List.mem_cons_of_mem _ hkp)
  refine ⟨BoundingBox.mk (jsMinFold k.x (ks.map Keypoint.x)) (jsMinFold k.y (ks.map Keypoint.y))
      (jsMaxFold k.x (ks.map Keypoint.x) - jsMinFold k.x (ks.map Keypoint.x))
      (jsMaxFold k.y (ks.map Keypoint.y) - jsMinFold k.y (ks.map Keypoint.y)),
    ?_, ?_⟩
  · simp only [calculateBoundingBox, hf]
  · show jsMaxFold k.x (ks.map Keypoint.x) - jsMinFold k.x (ks.map Keypoint.x) = 0
    rw [hk, jsMaxFold_all_eq a _ hks, jsMinFold_all_eq a _ hks, sub_self]

/-- When all qualifying keypoints share the y-coordinate a, the bounding box
exists and has height 0. -/
lemma calculateBoundingBox_height_zero (kps : List Keypoint) (k : Keypoint)
    (ks : List Keypoint) (a : ℚ) (hf : kps.filter scoreOkStrict = k :: ks)
    (ha : ∀ q ∈ kps.filter scoreOkStrict, q.y = a) :
    ∃ bb, calculateBoundingBox kps = some bb ∧ bb.height = 0 := by
  have hk : k.y = a := ha k (hf ▸ List.mem_cons_self k ks)
  have hks : ∀ q ∈ ks.map Keypoint.y, q = a := by
    intro q hq
    obtain ⟨kp, hkp, rfl⟩ := List.mem_map.mp hq
    exact ha kp (hf ▸ List.mem_cons_of_mem _ hkp)
  refine ⟨BoundingBox.mk (jsMinFold k.x (ks.map Keypoint.x)) (jsMinFold k.y (ks.map Keypoint.y))
      (jsMaxFold k.x (ks.map Keypoint.x) - jsMinFold k.x (ks.map Keypoint.x))
      (jsMaxFold k.y (ks.map Keypoint.y) - jsMinFold k.y (ks.map Keypoint.y)),
    ?_, ?_⟩
  · simp only [calculateBoundingBox, hf]
  · show jsMaxFold k.y (ks.map Keypoint.y) - jsMinFold k.y (ks.map Keypoint.y) = 0
    rw [hk, jsMaxFold_all_eq a _ hks, jsMinFold_all_eq a _ hks, sub_self]

/-- No dim layer is committed for a pose whose bounding box is degenerate. -/
lemma no_dim_of_degenerate_box (v : VideoCtx) (sd paused : Bool) (mx my : ℚ)
    (pose : Pose) (kps : List Keypoint) (bb : BoundingBox)
    (hk : pose.keypoints = some kps) (hbb : calculateBoundingBox kps = some bb)
    (hdeg : bb.width = 0 ∨ bb.height = 0) :
    ∀ r, DrawOp.dim r ∉ hoverPoseOps v sd paused mx my pose := by
  intro r hr
  obtain ⟨lines, mids, dims, heq, hl1, hl23, hl0, hpos⟩ :=
    hoverPoseOps_structure v sd paused mx my pose
  rw [heq] at hr
  rcases List.mem_append.mp hr with hr | hr
  · rcases List.mem_append.mp hr with hr | hr
    · exact absurd (hl1 _ hr) (by simp [DrawOp.layer])
    · rcases hl23 _ hr with h | h <;> simp [DrawOp.layer] at h
  · obtain ⟨kps2, bb2, hk2, hbb2, hw, hh⟩ := hpos (List.ne_nil_of_mem hr)
    rw [hk] at hk2
    obtain rfl := Option.some.inj hk2
    rw [hbb] at hbb2
    obtain rfl := Option.some.inj hbb2
    rcases hdeg with h | h
    · rw [h] at hw; exact lt_irrefl 0 hw
    · rw [h] at hh; exact lt_irrefl 0 hh

/-- C10: a dim layer is committed by the hover variant only when the bounding
box over the confidence-filtered keypoints exists with strictly positive width
and height; a pose with exactly one qualifying keypoint, or whose qualifying
keypoints all share one x or one y coordinate, produces no dimming even though
qualifying keypoints exist. -/
theorem claim_C10_dim_needs_positive_box :
    (∀ (v : VideoCtx) (sd paused : Bool) (mx my : ℚ) (pose : Pose) (r : ℚ × ℚ × ℚ × ℚ),
      DrawOp.dim r ∈ hoverPoseOps v sd paused mx my pose →
      ∃ kps bb, pose.keypoints = some kps ∧ calculateBoundingBox kps = some bb ∧
        0 < bb.width ∧ 0 < bb.height) ∧
    (∀ (v : VideoCtx) (sd paused : Bool) (mx my : ℚ) (pose : Pose)
      (kps : List Keypoint) (k : Keypoint), pose.keypoints = some kps →
      kps.filter scoreOkStrict = [k] →
      ∀ r, DrawOp.dim r ∉ hoverPoseOps v sd paused mx my pose) ∧
    (∀ (v : VideoCtx) (sd paused : Bool) (mx my : ℚ) (pose : Pose)
      (kps : List Keypoint) (a : ℚ), pose.keypoints = some kps →
      kps.filter scoreOkStrict ≠ [] →
      (∀ q ∈ kps.filter scoreOkStrict, q.x = a) →
      ∀ r, DrawOp.dim r ∉ hoverPoseOps v sd paused mx my pose) ∧
    (∀ (v : VideoCtx) (sd paused : Bool) (mx my : ℚ) (pose : Pose)
      (kps : List Keypoint) (a : ℚ), pose.keypoints = some kps →
      kps.filter scoreOkStrict ≠ [] →
      (∀ q ∈ kps.filter scoreOkStrict, q.y = a) →
      ∀ r, DrawOp.dim r ∉ hoverPoseOps v sd paused mx my pose) := by
  refine ⟨?_, ?_, ?_, ?_⟩
  · intro v sd paused mx my pose r hr
    obtain ⟨lines, mids, dims, heq, hl1, hl23, hl0, hpos⟩ :=
      hoverPoseOps_structure v sd paused mx my pose
    rw [heq] at hr
    rcases List.mem_append.mp hr with hr | hr
    · rcases List.mem_append.mp hr with hr | hr
      · exact absurd (hl1 _ hr) (by simp [DrawOp.layer])
      · rcases hl23 _ hr with h | h <;> simp [DrawOp.layer] at h
    · exact hpos (List.ne_nil_of_mem hr)
  · intro v sd paused mx my pose kps k hk hf r
    obtain ⟨bb, hbb, hw⟩ := calculateBoundingBox_width_zero kps k [] k.x hf
      (by intro q hq; rw [hf] at hq; rcases List.mem_singleton.mp hq with rfl; rfl)
    exact no_dim_of_degenerate_box v sd paused mx my pose kps bb hk hbb (Or.inl hw) r
  · intro v sd paused mx my pose kps a hk hne ha r
    obtain ⟨k, ks, hf⟩ := List.exists_cons_of_ne_nil hne
    obtain ⟨bb, hbb, hw⟩ := calculateBoundingBox_width_zero kps k ks a hf ha
    exact no_dim_of_degenerate_box v sd paused mx my pose kps bb hk hbb (Or.inl hw) r
  · intro v sd paused mx my pose kps a hk hne ha r
    obtain ⟨k, ks, hf⟩ := List.exists_cons_of_ne_nil hne
    obtain ⟨bb, hbb, hh⟩ := calculateBoundingBox_height_zero kps k ks a hf ha
    exact no_dim_of_degenerate_box v sd paused mx my pose kps bb hk hbb (Or.inr hh) r

/-- C10 witness: a pose with a single qualifying keypoint commits no dim layer. -/
theorem claim_C10_dim_needs_positive_box_witness :
    DrawOp.dim (0, 0, 0, 0) ∉ hoverPoseOps unitCtx true true 1000 1000
      { score := 1, keypoints := some [{ name := "left_knee", x := 5, y := 5, score := 1 }] } :=
  claim_C10_dim_needs_positive_box.2.1 unitCtx true true 1000 1000
    { score := 1, keypoints := some [{ name := "left_knee", x := 5, y := 5, score := 1 }] }
    [{ name := "left_knee", x := 5, y := 5, score := 1 }]
    { name := "left_knee", x := 5, y := 5, score := 1 } rfl
    (by norm_num [List.filter, scoreOkStrict]) (0, 0, 0, 0)

/-- A list of ops on one layer is pairwise layer-monotone. -/
lemma pairwise_layer_le_of_const (ops : List DrawOp) (n : ℕ)
    (h : ∀ op ∈ ops, DrawOp.layer op = n) :
    ops.Pairwise (fun a b => DrawOp.layer a ≤ DrawOp.layer b) := by
  induction ops with
  | nil => exact List.Pairwise.nil
  | cons a as ih =>
    refine List.Pairwise.cons ?_ (ih (fun op hop => h op (List.mem_cons_of_mem _ hop)))
    intro b hb
    rw [h a (List.mem_cons_self a as), h b (List.mem_cons_of_mem _ hb)]

/-- Concatenating three layer-homogeneous blocks in ascending layer order gives
a layer-sorted op list. -/
lemma sorted_layer_three (A B C : List DrawOp) (nA nB nC : ℕ) (hab : nA ≤ nB) (hbc : nB ≤ nC)
    (hA : ∀ op ∈ A, DrawOp.layer op = nA) (hB : ∀ op ∈ B, DrawOp.layer op = nB)
    (hC : ∀ op ∈ C, DrawOp.layer op = nC) :
    List.Sorted (· ≤ ·) ((A ++ B ++ C).map DrawOp.layer) := by
  unfold List.Sorted
  rw [List.pairwise_map, List.pairwise_append, List.pairwise_append]
  refine ⟨⟨pairwise_layer_le_of_const A nA hA, pairwise_layer_le_of_const B nB hB, ?_⟩,
    pairwise_layer_le_of_const C nC hC, ?_⟩
  · intro a ha b hb
    rw [hA a ha, hB b hb]
    exact hab
  · intro a ha c hc
    rcases List.mem_append.mp ha with h | h
    · rw [hA a h, hC c hc]
      exact le_trans hab hbc
    · rw [hB a h, hC c hc]
      exact hbc

/-- Shape of a click-variant cycle's canvas output: either blank or the
dim-skeleton-markers concatenation for the detected keypoints. -/
lemma clickDetectAndDraw_output (v : VideoCtx) (sd paused : Bool) (res : DetectResult)
    (canvas : List DrawOp) (cur : Option (List Keypoint)) :
    (clickDetectAndDraw true v sd paused res canvas cur).1 = [] ∨
    ∃ kps, (clickDetectAndDraw true v sd paused res canvas cur).1 =
      (if sd = true then clickDimOps v kps else []) ++
        skeletonOps v (buildKeypointMap kps) ++ clickMarkerOps v kps := by
  unfold clickDetectAndDraw
  rw [if_neg (by simp : ¬(true = false))]
  by_cases hp : paused = false
  · rw [if_pos hp]
    left
    rfl
  · rw [if_neg hp]
    rcases res with _ | poses
    · left
      rfl
    · rcases poses with _ | ⟨p, ps⟩
      · left
        rfl
      · rcases p with ⟨pscore, pkps⟩
        rcases pkps with _ | kps
        · left
          rfl
        · right
          exact ⟨kps, rfl⟩

/-- C7 amended: in every click-variant cycle the committed ops are layer-sorted
— dimming first, then skeleton lines, then markers — and no tooltip is ever
committed to the canvas (the click-variant detail box is DOM content, drawn on
canvas only at export time); in the hover variant each pose is drawn as
skeleton lines, then markers with tooltips interleaved, and the dimming layer
last. -/
theorem claim_C7_draw_order :
    (∀ (v : VideoCtx) (sd paused : Bool) (res : DetectResult) (canvas : List DrawOp)
      (cur : Option (List Keypoint)),
      List.Sorted (· ≤ ·)
        (((clickDetectAndDraw true v sd paused res canvas cur).1).map DrawOp.layer)) ∧
    (∀ (v : VideoCtx) (sd paused : Bool) (res : DetectResult) (canvas : List DrawOp)
      (cur : Option (List Keypoint)) (p : ℚ × ℚ) (t : String) (ang : Option ℤ),
      DrawOp.tooltip p t ang ∉ (clickDetectAndDraw true v sd paused res canvas cur).1) ∧
    (∀ (v : VideoCtx) (sd paused : Bool) (mx my : ℚ) (pose : Pose),
      ∃ lines mids dims, hoverPoseOps v sd paused mx my pose = lines ++ mids ++ dims ∧
        (∀ op ∈ lines, DrawOp.layer op = 1) ∧
        (∀ op ∈ mids, DrawOp.layer op = 2 ∨ DrawOp.layer op = 3) ∧
        (∀ op ∈ dims, DrawOp.layer op = 0)) := by
  have hdims : ∀ (v : VideoCtx) (sd : Bool) (kps : List Keypoint),
      ∀ op ∈ (if sd = true then clickDimOps v kps else []), DrawOp.layer op = 0 := by
    intro v sd kps op hop
    by_cases hsd : sd = true
    · rw [if_pos hsd] at hop
      exact clickDimOps_layer v kps op hop
    · rw [if_neg hsd] at hop
      exact absurd hop (List.not_mem_nil op)
  refine ⟨?_, ?_, ?_⟩
  · intro v sd paused res canvas cur
    rcases clickDetectAndDraw_output v sd paused res canvas cur with h | ⟨kps, h⟩
    · rw [h]
      simp
    · rw [h]
      exact sorted_layer_three _ _ _ 0 1 2 (by norm_num) (by norm_num)
        (hdims v sd kps) (skeletonOps_layer v (buildKeypointMap kps))
        (clickMarkerOps_layer v kps)
  · intro v sd paused res canvas cur p t ang hmem
    rcases clickDetectAndDraw_output v sd paused res canvas cur with h | ⟨kps, h⟩
    · rw [h] at hmem
      exact List.not_mem_nil _ hmem
    · rw [h] at hmem
      rcases List.mem_append.mp hmem with hm | hm
      · rcases List.mem_append.mp hm with hm | hm
        · have := hdims v sd kps _ hm
          simp [DrawOp.layer] at this
        · have := skeletonOps_layer v (buildKeypointMap kps) _ hm
          simp [DrawOp.layer] at this
      · have := clickMarkerOps_layer v kps _ hm
        simp [DrawOp.layer] at this
  · intro v sd paused mx my pose
    obtain ⟨lines, mids, dims, heq, h1, h23, h0, -⟩ :=
      hoverPoseOps_structure v sd paused mx my pose
    exact ⟨lines, mids, dims, heq, h1, h23, h0⟩

/-- C7 counterexample: a concrete hover-variant detection cycle draws the
skeleton line and both joint markers first and the dimming layer last, so the
layer sequence 1, 2, 2, 0 is not sorted — dimming is applied after the skeleton
and markers, against the claimed dim-first order. -/
theorem claim_C7_counterexample :
    hoverDetectAndDraw true unitCtx true true 1000 1000
      (DetectResult.ok [{ score := 1 / 2, keypoints := some [hipL, hipR] }]) [] =
      hoverCexOps ∧
    ¬ List.Sorted (· ≤ ·) (hoverCexOps.map DrawOp.layer) := by
  constructor
  · have hm : buildKeypointMap [hipL, hipR] =
        (fun n => if n = "right_hip" then some hipR else
          if n = "left_hip" then some hipL else none) := by
      funext n
      simp [buildKeypointMap, hipL, hipR]
    have hskel : skeletonOps unitCtx (buildKeypointMap [hipL, hipR]) =
        [DrawOp.line (10, 10) (20, 20)] := by
      rw [hm]
      simp only [skeletonOps, connections, bothEndpointsOk, hipL, hipR, mapToDisplaySpace,
        unitCtx, List.filterMap_cons, List.filterMap_nil, String.reduceEq, reduceIte,
        decide_eq_true_eq, Bool.and_eq_true, Bool.true_eq_false,
        (by norm_num : ¬(1 / 2 : ℚ) = 0), (by norm_num : (3 : ℚ) / 10 < 1 / 2),
        and_self, and_true, true_and]
      norm_num
    have hstep1 : hoverKeypointStep unitCtx true 1000 1000 (buildKeypointMap [hipL, hipR])
        [] hipL = [DrawOp.marker (10, 10) "#00FF00"] := by
      have hc1 : getJointColor "left_hip" = "#00FF00" := by decide
      simp [hoverKeypointStep, hipL, mapToDisplaySpace, unitCtx,
        distanceToPointer_lt15_iff, hc1]
      norm_num
    have hstep2 : hoverKeypointStep unitCtx true 1000 1000 (buildKeypointMap [hipL, hipR])
        [DrawOp.marker (10, 10) "#00FF00"] hipR =
        [DrawOp.marker (10, 10) "#00FF00", DrawOp.marker (20, 20) "#00FF00"] := by
      have hc2 : getJointColor "right_hip" = "#00FF00" := by decide
      simp [hoverKeypointStep, hipR, mapToDisplaySpace, unitCtx,
        distanceToPointer_lt15_iff, hc2]
      norm_num
    have hbb : calculateBoundingBox [hipL, hipR] = some (BoundingBox.mk 10 10 10 10) := by
      simp only [calculateBoundingBox, scoreOkStrict, hipL, hipR, jsMinFold, jsMaxFold,
        List.filter_cons, List.filter_nil, List.foldl_cons, List.foldl_nil,
        List.map_cons, List.map_nil, decide_eq_true_eq, Bool.and_eq_true, reduceIte,
        (by norm_num : ¬(1 / 2 : ℚ) = 0), (by norm_num : (3 : ℚ) / 10 < 1 / 2),
        and_self]
      norm_num [min_def, max_def]
    have hdim : hoverDimOps unitCtx (BoundingBox.mk 10 10 10 10) =
        [DrawOp.dim (-40, -40, 110, 110)] := by
      simp [hoverDimOps, mapToDisplaySpace, unitCtx]
      norm_num
    have hpose : hoverPoseOps unitCtx true true 1000 1000
        { score := 1 / 2, keypoints := some [hipL, hipR] } = hoverCexOps := by
      simp only [hoverPoseOps]
      rw [if_neg (by norm_num : ¬((1 / 2 : ℚ) = 0 ∨ (1 / 2 : ℚ) < 3 / 10))]
      rw [if_pos trivial, if_pos trivial]
      rw [hskel, List.foldl_cons, List.foldl_cons, List.foldl_nil, hstep1, hstep2, hbb]
      norm_num [hdim, hoverCexOps]
    simp only [hoverDetectAndDraw]
    rw [if_neg (by simp : ¬(true = false))]
    rw [if_neg (by norm_num [unitCtx] : ¬(unitCtx.nativeW = 0 ∨ unitCtx.nativeH = 0))]
    rw [List.foldl_cons, List.foldl_nil, List.nil_append]
    exact hpose
  · decide

/-- C7 witness: the click-variant layer ordering at a concrete cycle. -/
theorem claim_C7_draw_order_witness :
    List.Sorted (· ≤ ·)
      (((clickDetectAndDraw true unitCtx true true (DetectResult.ok []) [] none).1).map
        DrawOp.layer) :=
  claim_C7_draw_order.1 unitCtx true true (DetectResult.ok []) [] none
